import Mathlib

/-!
Shallow embedding of the transcript-distribution core of the
groq-zoom-lens service (Deno/JS source: `websocket-utils.js`,
`crypto-utils.js`, `config.js`, and the main application file).

The embedding keeps the source's names where Lean allows it:
`resolveWsUrl`, `addToRecentTranscripts`, `getRecentTranscripts`,
`createHmacSha256`, `generateSignature`, the `ws.onmessage` handlers of
the signaling and media WebSockets, the `bc.onmessage` BroadcastChannel
handler, and the webhook's `meeting.rtms_started` / `meeting.rtms_stopped`
branches.
-/

namespace GroqZoomLens

/-- A decoded transcript payload: the `content` object that the media
handler destructures from a `msg_type` 17 frame
(`{ user_id, user_name, data, timestamp }`).  The `data` guard in the
handler ensures `data` is a non-empty string by the time a payload is
built, so it is carried as a plain `String` here. -/
structure TranscriptPayload where
  user_id : Option String
  user_name : Option String
  data : String
  timestamp : Option Int
  deriving DecidableEq, Repr

/-- An SSE client handle held in the `sseClients` set.  `failing` models a
sink whose `send` throws; `received` records the payloads whose `send`
call succeeded, in delivery order. -/
structure Sink where
  id : Nat
  failing : Bool
  received : List TranscriptPayload
  deriving DecidableEq, Repr

/-- A message posted on the `rtms-transcripts` BroadcastChannel:
`bc.postMessage(\x7b type: 'transcript', origin: INSTANCE_ID, payload \x7d)`.
The constant `msg_type: 17` wrapper around the content is elided: the
payload field carries the content. -/
structure Envelope where
  etype : String
  origin : String
  payload : TranscriptPayload
  deriving DecidableEq, Repr

/-- The per-isolate transcript-distribution state: the isolate's
`INSTANCE_ID`, the module-level `recentTranscripts` array and the
`sseClients` set (modelled as a list in insertion order). -/
structure InstanceState where
  instanceId : String
  recentTranscripts : List TranscriptPayload
  sseClients : List Sink
  deriving DecidableEq, Repr

/-- Embedding of `addToRecentTranscripts` (websocket-utils.js:50-57): `unshift` the new
transcript, then if the length exceeds 50 keep `slice(0, 50)`. -/
def addToRecentTranscripts (transcript : TranscriptPayload)
    (recentTranscripts : List TranscriptPayload) : List TranscriptPayload :=
  let buf := transcript :: recentTranscripts
  if buf.length > 50 then buf.take 50 else buf

/-- Embedding of `getRecentTranscripts` (websocket-utils.js:60-62): returns the
`recentTranscripts` array as is. -/
def getRecentTranscripts (st : InstanceState) : List TranscriptPayload :=
  st.recentTranscripts

/-- One iteration of the local SSE fan-out loop in the media handler
(websocket-utils.js:206-214): `client.send(...)` inside a per-client
`try/catch`, so a throwing client is logged and skipped — it is neither
removed from `sseClients` nor allowed to stop the loop. -/
def deliverToSink (p : TranscriptPayload) (s : Sink) : Sink :=
  if s.failing then s else { s with received := s.received ++ [p] }

/-- The transcript branch of the media `onmessage` handler
(websocket-utils.js:186-224): store the content via
`addToRecentTranscripts`, send to every SSE client with per-client error
isolation, and post a `\x7b type: 'transcript', origin: INSTANCE_ID, payload \x7d`
envelope on the BroadcastChannel.  Returns the updated instance state and
the list of envelopes posted to the bus. -/
def publishTranscript (st : InstanceState) (p : TranscriptPayload) :
    InstanceState × List Envelope :=
  ({ st with
      recentTranscripts := addToRecentTranscripts p st.recentTranscripts,
      sseClients := st.sseClients.map (deliverToSink p) },
   [⟨"transcript", st.instanceId, p⟩])

/-- The relay fan-out loop in `bc.onmessage` (main application file,
lines 465-470): `for (const client of sseClients) client.send(...)` with
no per-client try/catch — the whole handler body sits in a single
`try \x7b ... \x7d catch \x7b\x7d`, so a throwing client aborts delivery to the
clients after it (the exception is swallowed by the outer catch). -/
def relayDeliver (p : TranscriptPayload) : List Sink → List Sink
  | [] => []
  | s :: rest =>
      if s.failing then s :: rest
      else { s with received := s.received ++ [p] } :: relayDeliver p rest

/-- The `bc.onmessage` BroadcastChannel handler (main application file,
lines 462-474): on `ev.data = msg`, if `msg` is null or
`msg.origin === INSTANCE_ID` return; else if `msg.type === 'transcript'`
send `msg.payload` to every local SSE client.  It never posts to the bus
and never touches `recentTranscripts`; the second component is the (always
empty) list of envelopes it posts. -/
def bcOnMessage (st : InstanceState) (msg : Option Envelope) :
    InstanceState × List Envelope :=
  match msg with
  | none => (st, [])
  | some env =>
      if env.origin = st.instanceId then (st, [])
      else if env.etype = "transcript" then
        ({ st with sseClients := relayDeliver env.payload st.sseClients }, [])
      else (st, [])

/-- Two broadcaster instances sharing the `rtms-transcripts` bus. -/
structure System where
  instA : InstanceState
  instB : InstanceState
  deriving Repr

/-- Deliver a batch of bus envelopes to one instance's `bc.onmessage`
handler, collecting any envelopes that the handler itself posts. -/
def busRound (inst : InstanceState) (posts : List Envelope) :
    InstanceState × List Envelope :=
  posts.foldl
    (fun acc e =>
      let r := bcOnMessage acc.1 (some e)
      (r.1, acc.2 ++ r.2))
    (inst, [])

/-- A full publish on instance A of a two-instance system: run the
transcript branch on A, then let the BroadcastChannel deliver every posted
envelope to both instances' `bc.onmessage` handlers (delivery to the
origin itself is the conservative multi-isolate case the origin check
guards against).  Returns the new system and all envelopes freshly posted
by the handlers during bus delivery. -/
def publishOnA (sys : System) (p : TranscriptPayload) : System × List Envelope :=
  let r := publishTranscript sys.instA p
  let ra := busRound r.1 r.2
  let rb := busRound sys.instB r.2
  (⟨ra.1, rb.1⟩, ra.2 ++ rb.2)

/-! ## Socket message handlers (signaling and media channels) -/

/-- The fields of a parsed inbound WebSocket JSON message that the two
`onmessage` handlers read: `msg_type`, `status_code`, `timestamp`,
`msg.media_server?.server_urls?.all`, and `msg.content`.  Absent JSON
fields are `none`. -/
structure WsMsg where
  msg_type : Int
  status_code : Option Int
  timestamp : Option Int
  media_url_all : Option String
  content : Option TranscriptPayload
  deriving DecidableEq, Repr

/-- An outbound protocol message sent by a handler: a keep-alive response
(`msg_type` 13, echoing `msg.timestamp`) or a client-ready ack
(`msg_type` 7, carrying `rtms_stream_id`). -/
inductive OutMsg where
  | keepAliveResp (timestamp : Option Int)
  | clientReadyAck (streamId : String)
  deriving DecidableEq, Repr

/-- An observable action of the signaling `onmessage` handler
(websocket-utils.js:91-120): send a message on this (signaling) socket,
call `connectToMediaWebSocket` with the discovered media URL, or log the
no-media-URL warning. -/
inductive SigAction where
  | send (m : OutMsg)
  | openMedia (url : String)
  | warnNoMediaUrl
  deriving DecidableEq, Repr

/-- The signaling socket's `onmessage` handler (websocket-utils.js:91-120):
if `msg.msg_type === 2 && msg.status_code === 0`, read
`msg.media_server?.server_urls?.all` and open the media socket when
present (warn otherwise); independently, if `msg.msg_type === 12`, send a
`msg_type` 13 keep-alive response with `timestamp: msg.timestamp`.  The
two `if`s are not chained, so the action lists concatenate. -/
def signalingOnMessage (msg : WsMsg) : List SigAction :=
  (if msg.msg_type = 2 ∧ msg.status_code = some 0 then
    match msg.media_url_all with
    | some mediaUrl => [.openMedia mediaUrl]
    | none => [.warnNoMediaUrl]
  else []) ++
  (if msg.msg_type = 12 then [.send (.keepAliveResp msg.timestamp)] else [])

/-- An observable action of the media `onmessage` handler: send a message
on the media socket (`mediaWs.send`) or on the owning signaling socket
(`signalingSocket.send`). -/
inductive MediaAction where
  | sendMedia (m : OutMsg)
  | sendSignaling (m : OutMsg)
  deriving DecidableEq, Repr

/-- The media socket's `onmessage` handler (websocket-utils.js:158-231),
closed over `streamId` and the owning `signalingSocket`, acting on the
broadcaster state:
* `msg.msg_type === 4 && msg.status_code === 0`: send the `msg_type` 7
  `CLIENT_READY_ACK` with `rtms_stream_id: streamId` on the signaling
  socket;
* `msg.msg_type === 12`: send the keep-alive response echoing
  `msg.timestamp` on the media socket;
* `msg.msg_type === 17 && msg.content && msg.content.data`: run the
  transcript branch (`publishTranscript`).  The `msg.content.data`
  truthiness test rejects an empty string.
Returns the new state, the socket sends, and the bus envelopes posted. -/
def mediaOnMessage (streamId : String) (st : InstanceState) (msg : WsMsg) :
    InstanceState × List MediaAction × List Envelope :=
  let acts1 : List MediaAction :=
    if msg.msg_type = 4 ∧ msg.status_code = some 0 then
      [.sendSignaling (.clientReadyAck streamId)]
    else []
  let acts2 : List MediaAction :=
    if msg.msg_type = 12 then [.sendMedia (.keepAliveResp msg.timestamp)] else []
  match msg.content with
  | some c =>
      if msg.msg_type = 17 ∧ c.data ≠ "" then
        let r := publishTranscript st c
        (r.1, acts1 ++ acts2, r.2)
      else (st, acts1 ++ acts2, [])
  | none => (st, acts1 ++ acts2, [])

/-- A keep-alive request (`msg_type` 12) carrying a server timestamp. -/
def mkKeepAliveReq (t : Option Int) : WsMsg :=
  ⟨12, none, t, none, none⟩

/-! ## Signature generation (crypto-utils.js) -/

/-- Behaviour of `new TextEncoder().encode(x)` on a possibly-undefined string, as the
WHATWG Encoding standard defines it: `encode` takes an optional argument
defaulting to the empty string, so an undefined key (`none`) encodes to no
bytes; a present string encodes to its UTF-8 bytes. -/
def textEncoderEncode : Option String → List Nat
  | none => []
  | some s => s.toUTF8.toList.map (fun b => b.toNat)

/-- Behaviour of `crypto.subtle.importKey('raw', keyData, \x7b name: 'HMAC', ... \x7d, ...)`
as the W3C Web Crypto specification defines it for HMAC: if the key data
has length zero, throw a `DataError`; otherwise the key material is
usable. -/
def importKeyHmac (keyData : List Nat) : Except String (List Nat) :=
  if keyData.isEmpty then .error "DataError" else .ok keyData

/-- Hex-encode one byte: `b.toString(16).padStart(2, '0')`. -/
def byteToHex (b : Nat) : String :=
  let hexDigit := fun (n : Nat) => (Nat.toDigits 16 (n % 16)).asString
  hexDigit (b / 16) ++ hexDigit b

/-- Embedding of `createHmacSha256(key, data)` (crypto-utils.js:9-25): encode key and
data, import the key for HMAC-SHA-256 (failing with `DataError` on an
empty key per Web Crypto), sign, and hex-encode the digest.  The SHA-256
compression itself is a platform primitive, so the digest function is a
parameter: every theorem below holds for an arbitrary digest. -/
def createHmacSha256 (digest : List Nat → List Nat → List Nat)
    (key : Option String) (data : String) : Except String String :=
  let keyData := textEncoderEncode key
  let dataBytes := textEncoderEncode (some data)
  match importKeyHmac keyData with
  | .error e => .error e
  | .ok k => .ok (String.join ((digest k dataBytes).map byteToHex))

/-- A JavaScript template-literal interpolation of a possibly-undefined
string: an undefined value renders as the text "undefined". -/
def jsInterp : Option String → String
  | none => "undefined"
  | some s => s

/-- Embedding of `generateSignature(meetingUuid, streamId)` (crypto-utils.js:28-31):
HMAC over the comma-joined tuple with `ZOOM_CLIENT_ID` and keyed by
`ZOOM_CLIENT_SECRET`, both read from the environment (absent = `none`). -/
def generateSignature (digest : List Nat → List Nat → List Nat)
    (zoomClientId zoomClientSecret : Option String)
    (meetingUuid streamId : String) : Except String String :=
  let message := jsInterp zoomClientId ++ "," ++ meetingUuid ++ "," ++ streamId
  createHmacSha256 digest zoomClientSecret message

/-! ## URL-candidate resolution and session registration -/

/-- The shapes a `server_urls` webhook value can take, as `resolveWsUrl`
distinguishes them: null/undefined, a plain string, an object with an
optional `all` field, an array of strings, or some other primitive
(modelled by a number). -/
inductive UrlCandidate where
  | nullish
  | str (s : String)
  | obj (all : Option String)
  | list (xs : List String)
  | num (n : Int)
  deriving DecidableEq, Repr

/-- Embedding of `resolveWsUrl(server_urls)` (websocket-utils.js:17-27):
`if (!server_urls) return null` (so falsy values — null, the empty
string, zero — yield null); a string returns itself; a truthy `all` field
returns it; a non-empty array returns its first element; anything else
returns null. -/
def resolveWsUrl : UrlCandidate → Option String
  | .nullish => none
  | .str s => if s = "" then none else some s
  | .obj all =>
      match all with
      | some a => if a ≠ "" then some a else none
      | none => none
  | .list xs =>
      match xs with
      | [] => none
      | x :: _ => some x
  | .num n => if n = 0 then none else none

/-- JavaScript string coercion of a `server_urls` value, as the
`new WebSocket(url)` constructor applies it: `String(null)` is "null",
an object is "[object Object]", an array joins its elements with commas,
a number prints its digits. -/
def jsToString : UrlCandidate → String
  | .nullish => "null"
  | .str s => s
  | .obj _ => "[object Object]"
  | .list xs => String.intercalate "," xs
  | .num n => toString n

/-- Whether a string parses as an absolute URL with a WebSocket scheme.
The WHATWG WebSocket constructor throws a `SyntaxError` when the URL
fails to parse or has a non-ws(s) scheme. -/
def isWsUrl (s : String) : Bool :=
  List.isPrefixOf "ws://".toList s.toList || List.isPrefixOf "wss://".toList s.toList

/-- The `new WebSocket(url)` constructor: a `SyntaxError` exception for an
unusable URL, a socket handle otherwise. -/
def newWebSocket (url : String) : Except String String :=
  if isWsUrl url then .ok url else .error "SyntaxError"

/-- The per-meeting connection record stored in `activeConnections`:
optional `signaling` and `media` socket handles. -/
structure MeetingConns where
  signaling : Option String
  media : Option String
  deriving DecidableEq, Repr

/-- The module-level `activeConnections` map, meeting UUID to connection
record. -/
def Registry := String → Option MeetingConns

/-- The opening lines of `connectToSignalingWebSocket`
(websocket-utils.js:65-72): construct the WebSocket from the raw
`serverUrl` argument (throwing a `SyntaxError` out of the async function
for an unusable value) and, on success, store it in the meeting's
`signaling` slot, creating the record if needed. -/
def connectToSignalingWebSocket (reg : Registry) (meetingUuid : String)
    (serverUrl : UrlCandidate) : Except String Registry :=
  match newWebSocket (jsToString serverUrl) with
  | .error e => .error e
  | .ok ws =>
      .ok (fun k =>
        if k = meetingUuid then
          match reg meetingUuid with
          | some conns => some { conns with signaling := some ws }
          | none => some ⟨some ws, none⟩
        else reg k)

/-- The `meeting.rtms_started` branch of the webhook handler (main
application file, lines 557-562): destructure the payload and call
`connectToSignalingWebSocket(meeting_uuid, rtms_stream_id, server_urls)`
with the raw `server_urls` value — `resolveWsUrl` is imported but never
invoked on this path, and the call is not awaited, so a rejection
escapes the webhook's own try/catch as an unhandled promise rejection. -/
def handleRtmsStarted (reg : Registry) (meetingUuid : String)
    (serverUrls : UrlCandidate) : Except String Registry :=
  connectToSignalingWebSocket reg meetingUuid serverUrls

/-- The `meeting.rtms_stopped` branch of the webhook handler (main
application file, lines 565-576): if `activeConnections.has(meeting_uuid)`,
call `close()` on each stored connection value and delete the entry;
otherwise do nothing.  Returns the new map and the list of handles
closed. -/
def handleRtmsStopped (reg : Registry) (meetingUuid : String) :
    Registry × List String :=
  match reg meetingUuid with
  | none => (reg, [])
  | some conns =>
      ((fun k => if k = meetingUuid then none else reg k),
       conns.signaling.toList ++ conns.media.toList)

/-! ## Theorems -/

/-- C7: URL resolution maps a plain (non-empty) string candidate to
itself, an object exposing a (non-empty) `all` field to that field's
value, and a non-empty list to its first element; for null, empty, or
unrecognized candidate shapes it yields no URL (`none`) rather than
throwing — `resolveWsUrl` is total, so no shape can make it throw. -/
theorem C7_resolveWsUrl_shapes :
    (∀ s : String, s ≠ "" → resolveWsUrl (.str s) = some s) ∧
    (∀ a : String, a ≠ "" → resolveWsUrl (.obj (some a)) = some a) ∧
    (∀ (x : String) (xs : List String), resolveWsUrl (.list (x :: xs)) = some x) ∧
    resolveWsUrl .nullish = none ∧
    resolveWsUrl (.str "") = none ∧
    resolveWsUrl (.obj none) = none ∧
    resolveWsUrl (.obj (some "")) = none ∧
    resolveWsUrl (.list []) = none ∧
    (∀ n : Int, resolveWsUrl (.num n) = none) := by
  refine ⟨?_, ?_, ?_, rfl, rfl, rfl, rfl, rfl, ?_⟩
  · intro s hs; simp [resolveWsUrl, hs]
  · intro a ha; simp [resolveWsUrl, ha]
  · intro x xs; simp [resolveWsUrl]
  · intro n; by_cases hn : n = 0 <;> simp [resolveWsUrl, hn]

/-- Witness for C7 at the concrete shapes of the spec's end-to-end
scenario. -/
theorem C7_resolveWsUrl_shapes_witness :
    resolveWsUrl (.str "wss://sig.example/abc") = some "wss://sig.example/abc" ∧
    resolveWsUrl (.obj (some "wss://media.example/xyz")) = some "wss://media.example/xyz" ∧
    resolveWsUrl (.list ["wss://a.example", "wss://b.example"]) = some "wss://a.example" ∧
    resolveWsUrl .nullish = none :=
  ⟨C7_resolveWsUrl_shapes.1 "wss://sig.example/abc" (by decide),
   C7_resolveWsUrl_shapes.2.1 "wss://media.example/xyz" (by decide),
   C7_resolveWsUrl_shapes.2.2.1 "wss://a.example" ["wss://b.example"],
   C7_resolveWsUrl_shapes.2.2.2.1⟩

/-- C3: a keep-alive request (`msg_type` 12) received on the signaling
channel or on the media channel yields exactly one keep-alive response on
the same channel whose timestamp equals the received timestamp, for every
integer timestamp, zero and negative values included; the media channel's
broadcaster state is untouched. -/
theorem C3_keepAlive_echoes_timestamp :
    ∀ (t : Int) (streamId : String) (st : InstanceState),
      signalingOnMessage (mkKeepAliveReq (some t))
        = [.send (.keepAliveResp (some t))] ∧
      mediaOnMessage streamId st (mkKeepAliveReq (some t))
        = (st, [.sendMedia (.keepAliveResp (some t))], []) := by
  intro t streamId st
  constructor
  · simp [signalingOnMessage, mkKeepAliveReq]
  · simp [mediaOnMessage, mkKeepAliveReq]

/-- C8: on a data-handshake-success response (`msg_type` 4 with
`status_code` 0), the media handler sends the client-ready ack carrying
the stream identifier on the signaling socket — and nothing on the media
socket — leaving the broadcaster state unchanged and posting nothing to
the bus. -/
theorem C8_ready_ack_on_signaling_socket :
    ∀ (streamId : String) (st : InstanceState) (msg : WsMsg),
      msg.msg_type = 4 → msg.status_code = some 0 →
      mediaOnMessage streamId st msg
        = (st, [.sendSignaling (.clientReadyAck streamId)], []) := by
  intro streamId st msg h4 h0
  cases hc : msg.content <;>
    simp [mediaOnMessage, h4, h0, hc]

/-- Witness for C8 at a concrete handshake-success message. -/
theorem C8_ready_ack_witness :
    mediaOnMessage "stream-1" ⟨"A", [], []⟩ ⟨4, some 0, none, none, none⟩
      = (⟨"A", [], []⟩, [.sendSignaling (.clientReadyAck "stream-1")], []) :=
  C8_ready_ack_on_signaling_socket "stream-1" ⟨"A", [], []⟩
    ⟨4, some 0, none, none, none⟩ rfl rfl

/-- C5: whenever the pre-shared secret encodes to zero key bytes — in
particular when it is absent, since an undefined `TextEncoder.encode`
argument selects the empty default — the signature operation fails with
Web Crypto's `DataError` at key import, before any digest is computed
(the statement holds for every digest function), so no signature keyed by
an empty key is ever produced. -/
theorem C5_no_empty_key_signature :
    ∀ (digest : List Nat → List Nat → List Nat)
      (zoomClientId zoomClientSecret : Option String)
      (meetingUuid streamId : String),
      textEncoderEncode zoomClientSecret = [] →
      generateSignature digest zoomClientId zoomClientSecret meetingUuid streamId
        = .error "DataError" := by
  intro digest cid secret m s hkey
  simp [generateSignature, createHmacSha256, importKeyHmac, hkey]

/-- Witness for C5 with the secret absent from the environment. -/
theorem C5_no_empty_key_signature_witness :
    textEncoderEncode none = [] ∧
    generateSignature (fun k d => k ++ d) (some "client-id") none "mtg-uuid" "stream-1"
      = .error "DataError" :=
  ⟨rfl, C5_no_empty_key_signature (fun k d => k ++ d) (some "client-id") none
    "mtg-uuid" "stream-1" rfl⟩

/-- C9: the `meeting.rtms_stopped` handler closes exactly the stored
signaling and media handles of the meeting (when an entry exists) and
removes the entry; when no entry exists it returns the registry unchanged
and closes nothing; every other meeting's entry is untouched; and running
it twice equals running it once (idempotence). -/
theorem C9_deregister_idempotent_noop :
    ∀ (reg : Registry) (meetingUuid : String),
      (reg meetingUuid = none → handleRtmsStopped reg meetingUuid = (reg, [])) ∧
      (∀ conns, reg meetingUuid = some conns →
        (handleRtmsStopped reg meetingUuid).2
          = conns.signaling.toList ++ conns.media.toList ∧
        (handleRtmsStopped reg meetingUuid).1 meetingUuid = none) ∧
      (∀ m', m' ≠ meetingUuid →
        (handleRtmsStopped reg meetingUuid).1 m' = reg m') ∧
      handleRtmsStopped (handleRtmsStopped reg meetingUuid).1 meetingUuid
        = ((handleRtmsStopped reg meetingUuid).1, []) := by
  intro reg m
  refine ⟨?_, ?_, ?_, ?_⟩
  · intro h; simp [handleRtmsStopped, h]
  · intro conns h; simp [handleRtmsStopped, h]
  · intro m' hm'
    cases h : reg m with
    | none => simp [handleRtmsStopped, h]
    | some conns => simp [handleRtmsStopped, h, hm']
  · cases h : reg m with
    | none => simp [handleRtmsStopped, h]
    | some conns => simp [handleRtmsStopped, h]

/-- Witness for C9 on a registry holding one other meeting: deregistering
an absent meeting is a no-op that leaves the other meeting's entry and is
idempotent. -/
theorem C9_deregister_witness :
    handleRtmsStopped
        (fun k => if k = "mtg-a" then some ⟨some "ws-sig", none⟩ else none) "mtg-b"
      = ((fun k => if k = "mtg-a" then some ⟨some "ws-sig", none⟩ else none), []) ∧
    (handleRtmsStopped
        (fun k => if k = "mtg-a" then some ⟨some "ws-sig", none⟩ else none) "mtg-b").1 "mtg-a"
      = some ⟨some "ws-sig", none⟩ ∧
    handleRtmsStopped
        (handleRtmsStopped
          (fun k => if k = "mtg-a" then some ⟨some "ws-sig", none⟩ else none) "mtg-b").1 "mtg-b"
      = ((handleRtmsStopped
          (fun k => if k = "mtg-a" then some ⟨some "ws-sig", none⟩ else none) "mtg-b").1, []) := by
  refine ⟨(C9_deregister_idempotent_noop _ "mtg-b").1 (by simp), ?_,
    (C9_deregister_idempotent_noop _ "mtg-b").2.2.2⟩
  have h := (C9_deregister_idempotent_noop
    (fun k => if k = "mtg-a" then some ⟨some "ws-sig", none⟩ else none) "mtg-b").2.2.1
    "mtg-a" (by decide)
  simpa using h

/-- Closed form of one buffer update: prepending and trimming to 50 is
taking 50 of the cons. -/
theorem addToRecentTranscripts_eq_take (t : TranscriptPayload)
    (buf : List TranscriptPayload) :
    addToRecentTranscripts t buf = (t :: buf).take 50 := by
  by_cases h : (t :: buf).length > 50
  · simp [addToRecentTranscripts, h]
  · simp [addToRecentTranscripts, h,
      List.take_of_length_le (Nat.le_of_not_lt h)]

/-- Taking `n` of an append absorbs an inner `take n` on the right part. -/
theorem take_append_take {α : Type} (xs ys : List α) (n : Nat) :
    (xs ++ ys.take n).take n = (xs ++ ys).take n := by
  rw [List.take_append_eq_append_take, List.take_append_eq_append_take,
    List.take_take, Nat.min_eq_left (Nat.sub_le n xs.length)]

/-- Closed form of folding buffer updates over a list of published
events, starting from any buffer within capacity. -/
theorem foldl_addToRecentTranscripts (evs : List TranscriptPayload) :
    ∀ b : List TranscriptPayload, b.length ≤ 50 →
      evs.foldl (fun b t => addToRecentTranscripts t b) b
        = (evs.reverse ++ b).take 50 := by
  induction evs with
  | nil => intro b hb; simp [List.take_of_length_le hb]
  | cons t rest ih =>
      intro b hb
      rw [List.foldl_cons, addToRecentTranscripts_eq_take,
        ih ((t :: b).take 50) (List.length_take_le 50 (t :: b)),
        take_append_take]
      simp

/-- C2: starting from the empty buffer, the recency buffer after any
sequence of published events is exactly the newest-first (reversed)
sequence cut to 50, hence never holds more than 50 entries; each publish
prepends its event (the new head is the newest event); and after
publishing 51 distinct events the oldest (first-published) event is no
longer present. -/
theorem C2_recencyBuffer_bounded_newest_first :
    (∀ evs : List TranscriptPayload,
      evs.foldl (fun b t => addToRecentTranscripts t b) [] = evs.reverse.take 50 ∧
      (evs.foldl (fun b t => addToRecentTranscripts t b) []).length ≤ 50) ∧
    (∀ (t : TranscriptPayload) (buf : List TranscriptPayload),
      (addToRecentTranscripts t buf).head? = some t) ∧
    (∀ (x : TranscriptPayload) (rest : List TranscriptPayload),
      rest.length = 50 → x ∉ rest →
      x ∉ (x :: rest).foldl (fun b t => addToRecentTranscripts t b) []) := by
  have hfold : ∀ evs : List TranscriptPayload,
      evs.foldl (fun b t => addToRecentTranscripts t b) [] = evs.reverse.take 50 := by
    intro evs
    have h := foldl_addToRecentTranscripts evs [] (by simp)
    simpa using h
  refine ⟨fun evs => ⟨hfold evs, ?_⟩, ?_, ?_⟩
  · rw [hfold evs]; exact List.length_take_le 50 _
  · intro t buf
    rw [addToRecentTranscripts_eq_take, show (50 : Nat) = 49 + 1 from rfl,
      List.take_succ_cons]
    rfl
  · intro x rest hlen hx
    rw [hfold]
    have hrev : (x :: rest).reverse = rest.reverse ++ [x] := by simp
    rw [hrev, List.take_append_eq_append_take]
    have h50 : rest.reverse.length = 50 := by simpa using hlen
    rw [h50, List.take_of_length_le (by rw [h50]), Nat.sub_self]
    simpa using hx

/-- Witness for C2's oldest-eviction clause: 51 distinct events, the
first-published one absent from the resulting buffer. -/
theorem C2_recencyBuffer_witness :
    (⟨none, none, "t", some 0⟩ : TranscriptPayload) ∉
      ((⟨none, none, "t", some 0⟩ :
          TranscriptPayload) ::
        (List.range 50).map (fun (i : Nat) =>
          (⟨none, none, "t", some ((i : Int) + 1)⟩ :
            TranscriptPayload))).foldl
        (fun b t => addToRecentTranscripts t b) [] := by
  refine C2_recencyBuffer_bounded_newest_first.2.2 _ _
    (by rw [List.length_map]; exact List.length_range 50) ?_
  intro hmem
  simp only [List.mem_map, List.mem_range] at hmem
  obtain ⟨i, _, h⟩ := hmem
  have ht := congrArg TranscriptPayload.timestamp h
  simp only [Option.some.injEq] at ht
  omega

/-- C6 (failing behaviour): the `meeting.rtms_started` webhook branch
passes the raw `server_urls` value straight to the WebSocket constructor
without consulting `resolveWsUrl`, so an unresolvable candidate — and
even a resolvable object shape — makes the constructor throw a
`SyntaxError` that escapes the unawaited async call as an unhandled
rejection; no channel is opened, but no dropped-session warning is
logged either. -/
theorem C6_rtms_started_throws :
    handleRtmsStarted (fun _ => none) "mtg-uuid" .nullish = .error "SyntaxError" ∧
    handleRtmsStarted (fun _ => none) "mtg-uuid" (.obj (some "wss://sig.example/abc"))
      = .error "SyntaxError" ∧
    resolveWsUrl (.obj (some "wss://sig.example/abc")) = some "wss://sig.example/abc" ∧
    handleRtmsStarted (fun _ => none) "mtg-uuid" (.str "wss://sig.example/abc")
      ≠ .error "SyntaxError" := by
  have h1 : isWsUrl "null" = false := rfl
  have h2 : isWsUrl "[object Object]" = false := rfl
  have h3 : isWsUrl "wss://sig.example/abc" = true := rfl
  refine ⟨?_, ?_, rfl, ?_⟩
  · simp [handleRtmsStarted, connectToSignalingWebSocket, newWebSocket, jsToString, h1]
  · simp [handleRtmsStarted, connectToSignalingWebSocket, newWebSocket, jsToString, h2]
  · simp [handleRtmsStarted, connectToSignalingWebSocket, newWebSocket, jsToString, h3]

/-- C4 counterexample: with subscriber 0 failing and subscriber 1
healthy, a publish delivers the event to subscriber 1 but leaves the
failed subscriber 0 in the subscriber set — the claim's removal of a
failed sink does not happen. -/
theorem C4_failed_sink_not_removed :
    (publishTranscript ⟨"A", [], [⟨0, true, []⟩, ⟨1, false, []⟩]⟩
        ⟨some "u1", some "Alice", "hello", some 1234⟩).1.sseClients
      = [⟨0, true, []⟩,
         ⟨1, false, [⟨some "u1", some "Alice", "hello", some 1234⟩]⟩] ∧
    (⟨0, true, []⟩ : Sink) ∈
      (publishTranscript ⟨"A", [], [⟨0, true, []⟩, ⟨1, false, []⟩]⟩
        ⟨some "u1", some "Alice", "hello", some 1234⟩).1.sseClients := by
  constructor
  · rfl
  · decide

/-- C4 (amended): during a single publish a subscriber whose delivery
throws is caught and skipped — it does not prevent delivery to any other
current subscriber (every non-failing subscriber receives exactly the
published event) — but it is not removed from the subscriber set: the
set keeps exactly its members, failed ones included. -/
theorem C4_delivery_isolated_no_removal (st : InstanceState) (p : TranscriptPayload) :
    (publishTranscript st p).1.sseClients = st.sseClients.map (deliverToSink p) ∧
    (publishTranscript st p).1.sseClients.length = st.sseClients.length ∧
    (∀ s ∈ st.sseClients, s.failing = false →
      deliverToSink p s = { s with received := s.received ++ [p] }) ∧
    (∀ s ∈ st.sseClients, s.failing = true → deliverToSink p s = s) := by
  refine ⟨rfl, by simp [publishTranscript], ?_, ?_⟩
  · intro s _ hs; simp [deliverToSink, hs]
  · intro s _ hs; simp [deliverToSink, hs]

/-- Witness for C4's amended statement on a two-subscriber set with one
failing member. -/
theorem C4_delivery_isolated_witness :
    deliverToSink ⟨some "u1", some "Alice", "hello", some 1234⟩ ⟨1, false, []⟩
      = ⟨1, false, [⟨some "u1", some "Alice", "hello", some 1234⟩]⟩ ∧
    deliverToSink ⟨some "u1", some "Alice", "hello", some 1234⟩ ⟨0, true, []⟩
      = ⟨0, true, []⟩ ∧
    (publishTranscript ⟨"A", [], [⟨0, true, []⟩, ⟨1, false, []⟩]⟩
        ⟨some "u1", some "Alice", "hello", some 1234⟩).1.sseClients.length = 2 := by
  have h := C4_delivery_isolated_no_removal
    ⟨"A", [], [⟨0, true, []⟩, ⟨1, false, []⟩]⟩
    ⟨some "u1", some "Alice", "hello", some 1234⟩
  exact ⟨h.2.2.1 ⟨1, false, []⟩ (by decide) rfl,
    h.2.2.2 ⟨0, true, []⟩ (by decide) rfl,
    by simpa using h.2.1⟩

/-- Relay and bus-round frame lemma: the `bc.onmessage` handler never
touches the recency buffer. -/
theorem bcOnMessage_recent (st : InstanceState) (msg : Option Envelope) :
    (bcOnMessage st msg).1.recentTranscripts = st.recentTranscripts := by
  rcases msg with _ | env
  · rfl
  · simp only [bcOnMessage]
    split_ifs <;> rfl

/-- Folding bus deliveries over a list of envelopes never touches the
recency buffer, whatever the accumulated outbound posts. -/
theorem busRound_foldl_recent (posts : List Envelope) :
    ∀ (inst : InstanceState) (outs : List Envelope),
      ((posts.foldl
          (fun acc e =>
            let r := bcOnMessage acc.1 (some e)
            (r.1, acc.2 ++ r.2))
          (inst, outs)).1).recentTranscripts = inst.recentTranscripts := by
  induction posts with
  | nil => intro inst outs; rfl
  | cons e rest ih =>
      intro inst outs
      rw [List.foldl_cons]
      exact (ih (bcOnMessage inst (some e)).1 _).trans (bcOnMessage_recent inst (some e))

/-- A bus round leaves the receiving instance's recency buffer intact. -/
theorem busRound_recent (inst : InstanceState) (posts : List Envelope) :
    (busRound inst posts).1.recentTranscripts = inst.recentTranscripts :=
  busRound_foldl_recent posts inst []

/-- C10: a transcript envelope arriving over the cross-instance bus is
delivered to local subscribers only — it is never added to the local
recency buffer — so after a publish on instance A, instance B's
`recent()` is unchanged while instance A's gains exactly the event its
own media channel decoded. -/
theorem C10_relay_never_buffers :
    ∀ (st : InstanceState) (msg : Option Envelope) (sys : System)
      (p : TranscriptPayload),
      (bcOnMessage st msg).1.recentTranscripts = st.recentTranscripts ∧
      getRecentTranscripts (bcOnMessage st msg).1 = getRecentTranscripts st ∧
      ((publishOnA sys p).1.instB).recentTranscripts
        = sys.instB.recentTranscripts ∧
      ((publishOnA sys p).1.instA).recentTranscripts
        = addToRecentTranscripts p sys.instA.recentTranscripts := by
  intro st msg sys p
  refine ⟨bcOnMessage_recent st msg, bcOnMessage_recent st msg, ?_, ?_⟩
  · exact busRound_recent sys.instB (publishTranscript sys.instA p).2
  · exact (busRound_recent (publishTranscript sys.instA p).1
      (publishTranscript sys.instA p).2).trans rfl

/-- Relay delivery over a set of healthy sinks appends the payload to
every sink exactly once. -/
theorem relayDeliver_all_ok (p : TranscriptPayload) :
    ∀ l : List Sink, (∀ s ∈ l, s.failing = false) →
      relayDeliver p l = l.map (fun s => { s with received := s.received ++ [p] }) := by
  intro l
  induction l with
  | nil => intro; rfl
  | cons s rest ih =>
      intro h
      have hs : s.failing = false := h s (by simp)
      have hrest := ih (fun x hx => h x (List.mem_cons_of_mem s hx))
      simp [relayDeliver, hs, hrest]

/-- Loop-prevention asymmetry of the relay: the `bc.onmessage` handler
never posts anything back to the bus. -/
theorem bcOnMessage_posts_nil (st : InstanceState) (msg : Option Envelope) :
    (bcOnMessage st msg).2 = [] := by
  rcases msg with _ | env
  · rfl
  · simp only [bcOnMessage]
    split_ifs <;> rfl

/-- C1: publishing on instance A posts exactly one origin-tagged envelope
to the bus; the handler ignores the echo on instance A (its state after
the bus round is exactly its post-publish state, so a publish never
re-triggers a publish on its origin); instance B's handler appends the
payload exactly once to every local subscriber; and no handler posts
anything back to the bus, so the relay terminates after one round. -/
theorem C1_relay_once_no_loop (sys : System) (p : TranscriptPayload)
    (hid : sys.instA.instanceId ≠ sys.instB.instanceId)
    (hok : ∀ s ∈ sys.instB.sseClients, s.failing = false) :
    (publishTranscript sys.instA p).2
      = [⟨"transcript", sys.instA.instanceId, p⟩] ∧
    bcOnMessage (publishTranscript sys.instA p).1
        (some ⟨"transcript", sys.instA.instanceId, p⟩)
      = ((publishTranscript sys.instA p).1, []) ∧
    (publishOnA sys p).2 = [] ∧
    (publishOnA sys p).1.instA = (publishTranscript sys.instA p).1 ∧
    (publishOnA sys p).1.instB.sseClients
      = sys.instB.sseClients.map (fun s => { s with received := s.received ++ [p] }) ∧
    (publishOnA sys p).1.instB.instanceId = sys.instB.instanceId := by
  have hecho : bcOnMessage (publishTranscript sys.instA p).1
      (some ⟨"transcript", sys.instA.instanceId, p⟩)
      = ((publishTranscript sys.instA p).1, []) := by
    simp [bcOnMessage, publishTranscript]
  have hB : bcOnMessage sys.instB (some ⟨"transcript", sys.instA.instanceId, p⟩)
      = ({ sys.instB with
            sseClients := relayDeliver p sys.instB.sseClients }, []) := by
    simp [bcOnMessage, hid]
  refine ⟨rfl, hecho, ?_, ?_, ?_, ?_⟩
  · simp [publishOnA, busRound, publishTranscript, bcOnMessage_posts_nil]
  · simp only [publishOnA, busRound, publishTranscript, List.foldl_cons,
      List.foldl_nil]
    simpa using congrArg Prod.fst hecho
  · simp only [publishOnA, busRound, publishTranscript, List.foldl_cons,
      List.foldl_nil]
    rw [show (bcOnMessage sys.instB
        (some ⟨"transcript", sys.instA.instanceId, p⟩)).1
      = { sys.instB with sseClients := relayDeliver p sys.instB.sseClients }
      from congrArg Prod.fst hB]
    exact relayDeliver_all_ok p sys.instB.sseClients hok
  · simp only [publishOnA, busRound, publishTranscript, List.foldl_cons,
      List.foldl_nil]
    rw [show (bcOnMessage sys.instB
        (some ⟨"transcript", sys.instA.instanceId, p⟩)).1
      = { sys.instB with sseClients := relayDeliver p sys.instB.sseClients }
      from congrArg Prod.fst hB]

/-- Witness for C1 on a concrete two-instance system: instance A with no
subscribers publishes, instance B's single subscriber receives the
payload exactly once, and the bus quiesces after the single posted
envelope. -/
theorem C1_relay_once_witness :
    (publishOnA ⟨⟨"A", [], []⟩, ⟨"B", [], [⟨0, false, []⟩]⟩⟩
        ⟨none, none, "hi", some 1⟩).2 = [] ∧
    (publishOnA ⟨⟨"A", [], []⟩, ⟨"B", [], [⟨0, false, []⟩]⟩⟩
        ⟨none, none, "hi", some 1⟩).1.instB.sseClients
      = [⟨0, false, [⟨none, none, "hi", some 1⟩]⟩] := by
  have h := C1_relay_once_no_loop
    ⟨⟨"A", [], []⟩, ⟨"B", [], [⟨0, false, []⟩]⟩⟩
    ⟨none, none, "hi", some 1⟩ (by decide) (by decide)
  exact ⟨h.2.2.1, by simpa using h.2.2.2.2.1⟩

end GroqZoomLens
